import Mathlib

/-!
Verification of the "Eternal Flame" backend against its specification.

The repository contains two near-duplicate implementations of the same
endpoints: a root one (`src/main.py` with `src/schemas.py`) and a nested one
(`src/backend/main.py`, `src/backend/schemas.py`, `src/backend/database.py`).
We embed both.  Documents of the Mongo-style store are modelled as
association lists from string keys to a small dynamic value type; collections
are lists of documents in insertion order (Mongo natural order).  Wall-clock
times are `Nat` parameters, and calls into external services (Stripe session
creation, Stripe webhook signature verification, hCaptcha) are modelled by
parameters carrying the outcome of the external call, since those services
are outside the repository.
-/

set_option autoImplicit false

namespace Flame

/-- A photo reference as parsed by `src/backend/schemas.py` (`Photo`):
a URL plus optional width/height. -/
structure Photo where
  url : String
  width : Option Nat
  height : Option Nat
deriving DecidableEq, Repr

/-- Dynamic values stored in a document field (the subset of BSON the
program actually writes). -/
inductive DVal where
  | s : String → DVal
  | n : Nat → DVal
  | b : Bool → DVal
  | strList : List String → DVal
  | photoList : List Photo → DVal
  | nul : DVal
deriving DecidableEq, Repr

/-- A schemaless document: an association list of fields, first binding of a
key wins on lookup (like a Python dict observed through `get`). -/
def Doc : Type := List (String × DVal)

instance : DecidableEq Doc := by
  unfold Doc
  infer_instance

instance : Append Doc := ⟨fun a b => List.append a b⟩

instance : Membership (String × DVal) Doc := ⟨fun d kv => List.Mem kv d⟩

/-- Field lookup, first match wins. -/
def Doc.get : Doc → String → Option DVal
  | [], _ => none
  | (k', v) :: rest, k => if k' = k then some v else Doc.get rest k

/-- Remove every binding of key `k` (a Python dict has at most one). -/
def eraseKey (d : Doc) (k : String) : Doc :=
  List.filter (fun kv => kv.fst != k) d

/-- `d[k] = v` on a Python dict / a single Mongo `$set` field: the key is
bound to `v` and any previous binding disappears. -/
def Doc.set (d : Doc) (k : String) (v : DVal) : Doc :=
  (k, v) :: eraseKey d k

/-- Apply a Mongo `$set` patch: the fields of `patch` are written into `d`
in order. -/
def applySet (d : Doc) (patch : Doc) : Doc :=
  List.foldl (fun acc kv => Doc.set acc kv.fst kv.snd) d patch

/-- Mongo filter `{k: v}` as used by the program. -/
def byField (k : String) (v : DVal) (d : Doc) : Bool :=
  decide (Doc.get d k = some v)

/-!  `src/backend/database.py` — the document store adapter.  -/

/-- The mutation `create_document` performs on the caller's dict before
inserting it:
`data["created_at"] = data.get("created_at", now); data["updated_at"] = now`. -/
def stamp_create (now : Nat) (data : Doc) : Doc :=
  let d := match Doc.get data "created_at" with
    | some v => Doc.set data "created_at" v
    | none => Doc.set data "created_at" (DVal.n now)
  Doc.set d "updated_at" (DVal.n now)

/-- `create_document(collection_name, data)` of `src/backend/database.py`:
stamps `created_at` (kept if supplied) and `updated_at` (always `now`),
inserts the document (pymongo adds the generated `_id`), and returns the new
id.  `newId` stands for the ObjectId pymongo generates. -/
def create_document (now : Nat) (newId : String) (data : Doc) (coll : List Doc) :
    String × List Doc :=
  (newId, coll ++ [Doc.set (stamp_create now data) "_id" (DVal.s newId)])

/-- `collection.find_one(filt)`: first document matching the filter. -/
def get_document (filt : Doc → Bool) : List Doc → Option Doc
  | [] => none
  | d :: rest => if filt d then some d else get_document filt rest

/-- `collection.find(filt).limit(limit)` materialised as a list
(`get_documents` of `src/backend/database.py`). -/
def get_documents (filt : Doc → Bool) (limit : Nat) (coll : List Doc) : List Doc :=
  List.take limit (List.filter filt coll)

/-- `collection.update_one(filt, {"$set": patch})`: patch the first matching
document in place. -/
def update_one (filt : Doc → Bool) (patch : Doc) : List Doc → List Doc
  | [] => []
  | d :: rest =>
      if filt d then applySet d patch :: rest else d :: update_one filt patch rest

/-- `update_document(collection_name, filt, update)` of
`src/backend/database.py`: forces `update["updated_at"] = now`, then applies
the patch with `$set` to the first matching document. -/
def update_document (now : Nat) (filt : Doc → Bool) (update : Doc)
    (coll : List Doc) : List Doc :=
  update_one filt (Doc.set update "updated_at" (DVal.n now)) coll

/-!  Basic lemmas about the document model.  -/

theorem get_set_self (d : Doc) (k : String) (v : DVal) :
    Doc.get (Doc.set d k v) k = some v := by
  simp [Doc.set, Doc.get]

theorem get_erase_ne (d : Doc) (k k' : String) (h : ¬ k' = k) :
    Doc.get (eraseKey d k') k = Doc.get d k := by
  induction d with
  | nil => rfl
  | cons x rest ih =>
      rcases x with ⟨xk, xv⟩
      by_cases hx : xk = k'
      · have hxk : ¬ xk = k := fun hk => h (hx ▸ hk)
        have h1 : eraseKey ((xk, xv) :: rest) k' = eraseKey rest k' := by
          simp [eraseKey, List.filter_cons, hx]
        rw [h1, ih]
        simp [Doc.get, hxk]
      · have h1 : eraseKey ((xk, xv) :: rest) k' = (xk, xv) :: eraseKey rest k' := by
          simp [eraseKey, List.filter_cons, hx]
        rw [h1]
        by_cases hk : xk = k
        · simp [Doc.get, hk]
        · simp [Doc.get, hk, ih]

theorem get_set_ne (d : Doc) (k k' : String) (v : DVal) (h : ¬ k' = k) :
    Doc.get (Doc.set d k' v) k = Doc.get d k := by
  simp [Doc.set, Doc.get, h]
  exact get_erase_ne d k k' h

theorem eraseKey_idem (d : Doc) (k : String) :
    eraseKey (eraseKey d k) k = eraseKey d k := by
  simp [eraseKey, List.filter_filter]

theorem eraseKey_comm (d : Doc) (a b : String) :
    eraseKey (eraseKey d a) b = eraseKey (eraseKey d b) a := by
  simp only [eraseKey, List.filter_filter]
  exact List.filter_congr (fun x _ => by cases hxa : x.fst != a <;>
    cases hxb : x.fst != b <;> simp [hxa, hxb])

theorem get_document_append (filt : Doc → Bool) (pre : List Doc) (d : Doc)
    (post : List Doc) (hpre : ∀ e ∈ pre, filt e = false) (hd : filt d = true) :
    get_document filt (pre ++ d :: post) = some d := by
  induction pre with
  | nil => simp [get_document, hd]
  | cons x xs ih =>
      have hx := hpre x (List.mem_cons_self x xs)
      simp [get_document, hx]
      exact ih (fun e he => hpre e (List.mem_cons_of_mem x he))

theorem update_one_append (filt : Doc → Bool) (patch : Doc) (pre : List Doc)
    (d : Doc) (post : List Doc) (hpre : ∀ e ∈ pre, filt e = false)
    (hd : filt d = true) :
    update_one filt patch (pre ++ d :: post) = pre ++ applySet d patch :: post := by
  induction pre with
  | nil => simp [update_one, hd]
  | cons x xs ih =>
      have hx := hpre x (List.mem_cons_self x xs)
      simp [update_one, hx]
      exact ih (fun e he => hpre e (List.mem_cons_of_mem x he))

/-!  Shared helpers for both implementations.  Python string methods are
modelled over the character list of the string (a Python `str` is a
sequence of code points), which keeps every definition kernel-computable. -/

/-- Python `str.lower()` (per-character, which is exact on ASCII). -/
def pyLower (s : String) : String :=
  String.mk (s.data.map Char.toLower)

/-- Python `str.strip()`: drop leading and trailing whitespace. -/
def pyStrip (s : String) : String :=
  String.mk ((((s.data.dropWhile Char.isWhitespace).reverse).dropWhile
    Char.isWhitespace).reverse)

/-- Python `s.replace(" ", "-")` as used by both slug generators. -/
def pyDashSpaces (s : String) : String :=
  String.mk (s.data.map (fun c => if c = ' ' then '-' else c))

def hasPre : List Char → List Char → Bool
  | [], _ => true
  | _ :: _, [] => false
  | a :: as, b :: bs => a == b && hasPre as bs

/-- Python `s.startswith(t)`. -/
def pyStartsWith (s t : String) : Bool :=
  hasPre t.data s.data

/-- Python `s.endswith(t)`. -/
def pyEndsWith (s t : String) : Bool :=
  hasPre t.data.reverse s.data.reverse

/-- Syntactic well-formedness of a URL as enforced by pydantic's `HttpUrl`
type, abstracted to its scheme check (the part the claims depend on). -/
def isHttpUrl (u : String) : Bool :=
  pyStartsWith u "http://" || pyStartsWith u "https://"

/-- The tier enumeration `basic | premium` enforced by both schemas
(`Literal` in `src/schemas.py`, a regex in `src/backend/schemas.py`). -/
def tierOk (t : String) : Bool :=
  t == "basic" || t == "premium"

def optStr : Option String → DVal
  | some s => DVal.s s
  | none => DVal.nul

def optNat : Option Nat → DVal
  | some t => DVal.n t
  | none => DVal.nul

/-- The request the program hands to `stripe.checkout.Session.create`:
the charge in minor units plus the `{flame_id, tier}` metadata. -/
structure SessionRequest where
  unit_amount : Nat
  flame_id : String
  tier : String
deriving DecidableEq, Repr

/-- A Stripe webhook event as returned by a successful
`stripe.Webhook.construct_event`: its `type`, and the
`data.object.metadata` fields the handlers read.  Signature verification
is performed by the Stripe library, so the handlers are modelled over the
verification outcome: `none` means `construct_event` raised. -/
structure WebhookEvent where
  type : String
  flame_id : Option String
  tier : Option String
deriving DecidableEq, Repr

def hexDigit (c : Char) : Bool :=
  c.isDigit || ('a' ≤ c && c ≤ 'f') || ('A' ≤ c && c ≤ 'F')

/-- Whether `bson.ObjectId(s)` succeeds: a 24-character hex string. -/
def objectIdOk (s : String) : Bool :=
  s.length == 24 && s.data.all hexDigit

end Flame

namespace Flame.Backend

/-!  `src/backend/schemas.py` and `src/backend/main.py`.  -/

/-- The decoded `FlameCreate` body of `src/backend/schemas.py`. -/
structure FlameCreate where
  recipient_name : String
  sender_name : Option String
  message : String
  photos : Option (List Photo)
  flame_color : String
  tier : String
  schedule_date : Option Nat
  allow_public_gallery : Bool
deriving DecidableEq, Repr

def colorOk (c : String) : Bool :=
  c == "red" || c == "pink" || c == "gold" || c == "purple"

/-- The constraints `src/backend/schemas.py` puts on `FlameCreate`:
`recipient_name` ≤ 100 chars, optional `sender_name` ≤ 100, `message` ≤ 5000
(no minimum), each photo a well-formed URL, `flame_color` in
`red|pink|gold|purple`, `tier` in `basic|premium`.  FastAPI rejects a body
violating these with a 422 before the handler runs. -/
def FlameCreate.valid (p : FlameCreate) : Bool :=
  decide (p.recipient_name.length ≤ 100) &&
  (match p.sender_name with
   | none => true
   | some s => decide (s.length ≤ 100)) &&
  decide (p.message.length ≤ 5000) &&
  (match p.photos with
   | none => true
   | some l => l.all (fun ph => isHttpUrl ph.url)) &&
  colorOk p.flame_color && tierOk p.tier

/-- The decoded `FlameReply` body of `src/backend/schemas.py`. -/
structure FlameReply where
  flame_id : String
  message : String
  sender_name : Option String
deriving DecidableEq, Repr

/-- `message` ≤ 2000 chars (no minimum), optional `sender_name` ≤ 100. -/
def FlameReply.valid (r : FlameReply) : Bool :=
  decide (r.message.length ≤ 2000) &&
  (match r.sender_name with
   | none => true
   | some s => decide (s.length ≤ 100))

/-- `generate_slug` of `src/backend/main.py`; `rand` stands for the
`secrets.token_urlsafe(9)` suffix. -/
def generate_slug (recipient : String) (sender : Option String) (rand : String) : String :=
  let base := pyDashSpaces (pyLower (pyStrip (if recipient = "" then "love" else recipient)))
  let base := match sender with
    | some s => if s = "" then base else base ++ "-from-" ++ pyDashSpaces (pyLower (pyStrip s))
    | none => base
  base ++ "-" ++ rand

def allowedExts : List String := [".jpg", ".jpeg", ".png", ".webp", ".gif"]

def photoUrlOk (url : String) : Bool :=
  pyStartsWith url "https://" && allowedExts.any (fun ext => pyEndsWith (pyLower url) ext)

/-- `validate_photos` of `src/backend/main.py`: silently keeps only the
`https` URLs ending in an allow-listed extension, then truncates to the
first three.  It never raises. -/
def validate_photos (photos : List Photo) : List Photo :=
  List.take 3 (List.filter (fun p => photoUrlOk p.url) photos)

/-- `create_flame` of `src/backend/main.py`.  `slugRand` is the slug's
random suffix, `flameId` the `secrets.token_urlsafe(12)` id, `oid` the
ObjectId pymongo generates on insert.  Note three facts read off the
source: the persisted `payment_status` is the literal `"pending"`;
`create_document` mutates the handler's `doc` dict in place (adding
`created_at`, `updated_at` and `_id`); and the final
`Flame(**doc, created_at=...)` therefore passes `created_at` twice,
raising `TypeError`, so the HTTP response is an internal error (500)
even though the document was already inserted. -/
def create_flame (now : Nat) (oid : String) (slugRand flameId : String)
    (p : FlameCreate) (flames : List Doc) : Except Nat Doc × List Doc :=
  if FlameCreate.valid p = false then (Except.error 422, flames)
  else
    let slug := generate_slug p.recipient_name p.sender_name slugRand
    let watermark := decide (¬ p.tier = "premium")
    let sender := match p.sender_name with
      | some s => if s = "" then "Anonymous" else s
      | none => "Anonymous"
    let doc : Doc := [
      ("id", DVal.s flameId),
      ("recipient_name", DVal.s (pyStrip p.recipient_name)),
      ("sender_name", DVal.s (pyStrip sender)),
      ("message", DVal.s p.message),
      ("photos", DVal.photoList (validate_photos (p.photos.getD []))),
      ("flame_color", DVal.s p.flame_color),
      ("tier", DVal.s p.tier),
      ("scheduled_for", optNat p.schedule_date),
      ("payment_status", DVal.s "pending"),
      ("slug", DVal.s slug),
      ("burn_start", DVal.n now),
      ("watermark", DVal.b watermark),
      ("allow_public_gallery", DVal.b p.allow_public_gallery)]
    (Except.error 500, (create_document now oid doc flames).snd)

/-- `price_map.get(req.tier)` of `src/backend/main.py`. -/
def price_map (tier : String) : Option Nat :=
  if tier = "basic" then some 499
  else if tier = "premium" then some 999
  else none

/-- `create_checkout_session` of `src/backend/main.py`: looks the flame up
by `id` (404 if absent), maps the tier through `price_map` (400 if
unknown), builds the redirect URLs from `flame["slug"]` (a `KeyError`,
hence 500, if the document lacks one) and hands the session request to
Stripe. -/
def create_checkout_session (flame_id tier : String) (flames : List Doc) :
    Except Nat SessionRequest :=
  match get_document (byField "id" (DVal.s flame_id)) flames with
  | none => Except.error 404
  | some flame =>
      match price_map tier with
      | none => Except.error 400
      | some amount =>
          match Doc.get flame "slug" with
          | none => Except.error 500
          | some _ => Except.ok { unit_amount := amount, flame_id := flame_id, tier := tier }

/-- `stripe_webhook` of `src/backend/main.py`.  `verified` is the outcome
of `stripe.Webhook.construct_event` over the raw body, signature header
and configured secret: `none` when verification raised. -/
def stripe_webhook (now : Nat) (verified : Option WebhookEvent)
    (flames : List Doc) : Except Nat Bool × List Doc :=
  match verified with
  | none => (Except.error 400, flames)
  | some ev =>
      if ev.type = "checkout.session.completed" then
        match ev.flame_id with
        | some fid =>
            if fid = "" then (Except.ok true, flames)
            else
              (Except.ok true,
               update_document now (byField "id" (DVal.s fid))
                 [("payment_status", DVal.s "paid"), ("tier", DVal.s (ev.tier.getD "basic"))]
                 flames)
        | none => (Except.ok true, flames)
      else (Except.ok true, flames)

/-- `reply_flame` of `src/backend/main.py`: 404 when the flame is absent,
403 when its tier is not `premium`, else persists exactly one reply
document referencing the flame id. -/
def reply_flame (now : Nat) (newId : String) (flame_id : String) (p : FlameReply)
    (flames replies : List Doc) : Except Nat Bool × List Doc :=
  if FlameReply.valid p = false then (Except.error 422, replies)
  else
    match get_document (byField "id" (DVal.s flame_id)) flames with
    | none => (Except.error 404, replies)
    | some flame =>
        if Doc.get flame "tier" = some (DVal.s "premium") then
          let doc : Doc := [("flame_id", DVal.s flame_id), ("message", DVal.s p.message),
            ("sender_name", optStr p.sender_name), ("created_at", DVal.n now)]
          (Except.ok true, (create_document now newId doc replies).snd)
        else (Except.error 403, replies)

end Flame.Backend

namespace Flame.Root

/-!  `src/schemas.py` and `src/main.py`.  -/

/-- The raw `/flames` request body of `src/main.py` (`payload: dict`).
Besides the keys `FlameCreate` of `src/schemas.py` knows, a client may
send a `payment_status` (silently ignored by the schema, which has no such
field) and a `captcha_token` (popped before validation). -/
structure FlamePayload where
  recipient_name : String
  sender_name : String
  message : String
  photos : Option (List String)
  flame_color : Option String
  tier : String
  schedule_date : Option Nat
  allow_public_gallery : Bool
  payment_status : Option String
  captcha_token : Option String
deriving DecidableEq, Repr

def allowedExts : List String := [".jpg", ".jpeg", ".png", ".gif", ".webp"]

/-- The `validate_photos` field validator of `src/schemas.py`: at most 3
photos, and every URL (lower-cased, as a whole string) must end in an
allow-listed image extension; otherwise a `ValueError` is raised, i.e. the
whole body is rejected. -/
def validate_photos_ok (v : Option (List String)) : Bool :=
  match v with
  | none => true
  | some l =>
      decide (l.length ≤ 3) &&
      l.all (fun url => allowedExts.any (fun ext => pyEndsWith (pyLower url) ext))

/-- The constraints `FlameCreate` of `src/schemas.py` puts on the body:
`recipient_name`/`sender_name` 1–80 chars, `message` 10–4000 chars,
`tier ∈ {basic, premium}`, photos well-formed URLs passing
`validate_photos`.  The extra `payment_status` key is not a schema field
and plays no part. -/
def FlameCreate.valid (p : FlamePayload) : Bool :=
  decide (1 ≤ p.recipient_name.length ∧ p.recipient_name.length ≤ 80) &&
  decide (1 ≤ p.sender_name.length ∧ p.sender_name.length ≤ 80) &&
  decide (10 ≤ p.message.length ∧ p.message.length ≤ 4000) &&
  tierOk p.tier &&
  (match p.photos with
   | none => true
   | some l => l.all isHttpUrl) &&
  validate_photos_ok p.photos

/-- `obj.model_dump()` for `FlameCreate` of `src/schemas.py`: exactly the
schema's fields — in particular no `payment_status`. -/
def FlameCreate.model_dump (p : FlamePayload) : Doc :=
  [("recipient_name", DVal.s p.recipient_name),
   ("sender_name", DVal.s p.sender_name),
   ("message", DVal.s p.message),
   ("photos", match p.photos with
     | some l => DVal.strList l
     | none => DVal.nul),
   ("flame_color", optStr p.flame_color),
   ("tier", DVal.s p.tier),
   ("schedule_date", optNat p.schedule_date),
   ("allow_public_gallery", DVal.b p.allow_public_gallery)]

/-- `FlameReply` of `src/schemas.py`: `message` between 3 and 2000 chars. -/
def FlameReply.valid (message : String) : Bool :=
  decide (3 ≤ message.length ∧ message.length ≤ 2000)

/-- Modelled from the spec: `src/main.py` imports `create_document` from a
root-level `database` module that is not present under `src/`.  Spec §4.1
specifies the adapter: on create it stamps a creation timestamp from its
own clock if absent and always overwrites the last-updated timestamp, then
inserts the document.  This coincides with `create_document` of
`src/backend/database.py`, which we reuse. -/
def create_document (now : Nat) (newId : String) (data : Doc) (coll : List Doc) :
    String × List Doc :=
  Flame.create_document now newId data coll

/-- Modelled from the spec: `src/main.py` imports `get_documents` from the
missing root-level `database` module; spec §4.1 specifies
`list(collection, filter, limit)`, matching `src/backend/database.py`. -/
def get_documents (filt : Doc → Bool) (limit : Nat) (coll : List Doc) : List Doc :=
  Flame.get_documents filt limit coll

/-- `generate_slug` of `src/main.py`; `rand` stands for
`secrets.token_urlsafe(9)`. -/
def generate_slug (recipient sender rand : String) : String :=
  let base := pyDashSpaces ((pyLower (pyStrip recipient)) ++ "-" ++ (pyLower (pyStrip sender)))
  base ++ "-" ++ rand

/-- Response of a successful `POST /flames` in `src/main.py`. -/
structure CreateResponse where
  id : String
  slug : String
  payment_status : String
deriving DecidableEq, Repr

/-- `create_flame` of `src/main.py`.  `captchaPass` is the outcome of
`verify_hcaptcha` (an external call; `True` when no secret is configured).
On success the handler persists the validated fields plus the slug, the
hard-coded `payment_status = "unpaid"` and its own timestamps, and echoes
`{id, slug, payment_status: "unpaid"}`. -/
def create_flame (now : Nat) (slugRand newId : String) (captchaPass : Bool)
    (p : FlamePayload) (flames : List Doc) : Except Nat CreateResponse × List Doc :=
  if captchaPass = false then (Except.error 400, flames)
  else if FlameCreate.valid p = false then (Except.error 422, flames)
  else
    let slug := generate_slug p.recipient_name p.sender_name slugRand
    let doc := ((((FlameCreate.model_dump p).set "slug" (DVal.s slug)).set
        "payment_status" (DVal.s "unpaid")).set "created_at" (DVal.n now)).set
        "updated_at" (DVal.n now)
    let ins := create_document now newId doc flames
    (Except.ok { id := ins.fst, slug := slug, payment_status := "unpaid" }, ins.snd)

/-- `checkout` of `src/main.py`: 400 if Stripe is unconfigured, 422 if
`flame_id` is missing or empty, otherwise charges 499 when the tier is
`"basic"` and 999 for every other tier value, without ever consulting the
flame collection (`flames` is never read) and with no invalid-tier check. -/
def checkout (stripeConfigured : Bool) (flame_id : Option String) (tier : String)
    (flames : List Doc) : Except Nat SessionRequest :=
  if stripeConfigured = false then Except.error 400
  else
    match flame_id with
    | none => Except.error 422
    | some fid =>
        if fid = "" then Except.error 422
        else
          let price := if tier = "basic" then 499 else 999
          Except.ok { unit_amount := price, flame_id := fid, tier := tier }

/-- `stripe_webhook` of `src/main.py`: 400 when the webhook secret is
unconfigured, 400 when `stripe.Webhook.construct_event` raises
(`verified = none`).  On a verified `checkout.session.completed` event
with a truthy `flame_id` and an available db handle it patches the flame
matching `_id` with `payment_status = "paid"` and a fresh `updated_at`;
an invalid ObjectId string is swallowed by the bare `except: pass`. -/
def stripe_webhook (now : Nat) (secretConfigured : Bool)
    (verified : Option WebhookEvent) (db : Option (List Doc)) :
    Except Nat Bool × Option (List Doc) :=
  if secretConfigured = false then (Except.error 400, db)
  else
    match verified with
    | none => (Except.error 400, db)
    | some ev =>
        if ev.type = "checkout.session.completed" then
          match ev.flame_id, db with
          | some fid, some flames =>
              if fid = "" then (Except.ok true, db)
              else if objectIdOk fid then
                (Except.ok true,
                 some (update_one (byField "_id" (DVal.s fid))
                   [("payment_status", DVal.s "paid"), ("updated_at", DVal.n now)] flames))
              else (Except.ok true, db)
          | _, _ => (Except.ok true, db)
        else (Except.ok true, db)

/-- The raw reply body of `src/main.py` (`payload: dict`): the `message`
the schema validates, plus any other client-supplied keys, which are
persisted verbatim. -/
structure ReplyPayload where
  message : String
  extra : Doc
deriving DecidableEq

/-- `reply_flame` of `src/main.py`: validates the message through
`FlameReply`, 500 if the db handle is unavailable, then persists the
payload (with `flame_id` and `created_at` stamped in) into the
`flamereply` collection.  It never loads the flame and never checks its
tier: `flames` is never read. -/
def reply_flame (now : Nat) (newId : String) (flame_id : String) (p : ReplyPayload)
    (dbConfigured : Bool) (flames replies : List Doc) : Except Nat Bool × List Doc :=
  if FlameReply.valid p.message = false then (Except.error 422, replies)
  else if dbConfigured = false then (Except.error 500, replies)
  else
    let doc := Doc.set (Doc.set (("message", DVal.s p.message) :: p.extra)
        "flame_id" (DVal.s flame_id)) "created_at" (DVal.n now)
    (Except.ok true, (create_document now newId doc replies).snd)

/-- `admin_flames` of `src/main.py`: `if not ADMIN_KEY or x_admin_key !=
ADMIN_KEY: 401` — an unset/empty admin key fails every request; otherwise
the header must equal the key exactly.  On success it lists paid flames
(capped at 200) with `_id` popped into `id`. -/
def admin_flames (admin_key : String) (x_admin_key : Option String)
    (flames : List Doc) : Except Nat (List Doc) :=
  if admin_key = "" ∨ ¬ x_admin_key = some admin_key then Except.error 401
  else
    Except.ok ((get_documents (byField "payment_status" (DVal.s "paid")) 200 flames).map
      (fun d => Doc.set (eraseKey d "_id") "id" ((Doc.get d "_id").getD DVal.nul)))

end Flame.Root

deriving instance DecidableEq for Except

namespace Flame

/-!  Support lemmas about `applySet` patches, used by the webhook and
timestamp theorems.  -/

theorem eraseKey_no_key (p : Doc) (k : String) :
    ∀ kv ∈ eraseKey p k, ¬ kv.fst = k := by
  intro kv hkv
  have h := List.of_mem_filter (p := fun kv : String × DVal => kv.fst != k) hkv
  simpa [bne_iff_ne] using h

theorem get_applySet_no_key (p : Doc) (k : String)
    (h : ∀ kv ∈ p, ¬ kv.fst = k) :
    ∀ d : Doc, Doc.get (applySet d p) k = Doc.get d k := by
  induction p with
  | nil => intro d; rfl
  | cons kv rest ih =>
      intro d
      have hk : ¬ kv.fst = k := h kv (List.mem_cons_self kv rest)
      have hrest : ∀ e ∈ rest, ¬ e.fst = k :=
        fun e he => h e (List.mem_cons_of_mem kv he)
      have : applySet d (kv :: rest) = applySet (Doc.set d kv.fst kv.snd) rest := rfl
      rw [this, ih hrest, get_set_ne _ _ _ _ hk]

theorem eraseKey_absorb (d : Doc) (a b : String) :
    eraseKey (eraseKey (eraseKey d a) b) a = eraseKey (eraseKey d a) b := by
  rw [eraseKey_comm (eraseKey d a) b a, eraseKey_idem]

theorem eraseKey_chain2 (d : Doc) (a b : String) :
    eraseKey (eraseKey (eraseKey (eraseKey d a) b) a) b
      = eraseKey (eraseKey d a) b := by
  rw [eraseKey_absorb d a b, eraseKey_idem]

theorem eraseKey_absorb3_a (d : Doc) (a b c : String) :
    eraseKey (eraseKey (eraseKey (eraseKey d a) b) c) a
      = eraseKey (eraseKey (eraseKey d a) b) c := by
  rw [eraseKey_comm (eraseKey (eraseKey d a) b) c a, eraseKey_absorb d a b]

theorem eraseKey_absorb3_b (d : Doc) (a b c : String) :
    eraseKey (eraseKey (eraseKey (eraseKey d a) b) c) b
      = eraseKey (eraseKey (eraseKey d a) b) c := by
  rw [eraseKey_comm (eraseKey (eraseKey d a) b) c b,
      eraseKey_comm (eraseKey d a) b b, eraseKey_idem]

theorem eraseKey_chain3 (d : Doc) (a b c : String) :
    eraseKey (eraseKey (eraseKey
      (eraseKey (eraseKey (eraseKey d a) b) c) a) b) c
      = eraseKey (eraseKey (eraseKey d a) b) c := by
  rw [eraseKey_absorb3_a d a b c, eraseKey_absorb3_b d a b c, eraseKey_idem]

end Flame

namespace Flame

theorem eraseKey_cons_keep (a k : String) (v : DVal) (rest : Doc) (h : ¬ a = k) :
    eraseKey ((a, v) :: rest) k = (a, v) :: eraseKey rest k := by
  simp [eraseKey, List.filter_cons, h]

theorem eraseKey_cons_drop (k : String) (v : DVal) (rest : Doc) :
    eraseKey ((k, v) :: rest) k = eraseKey rest k := by
  simp [eraseKey, List.filter_cons]

/-- The state update of the backend webhook handler
(`$set {payment_status, tier, updated_at}`) in `Doc.set` normal form. -/
theorem applySet_patchB (d : Doc) (t : Nat) (v : String) :
    applySet d (Doc.set [("payment_status", DVal.s "paid"), ("tier", DVal.s v)]
      "updated_at" (DVal.n t))
    = Doc.set (Doc.set (Doc.set d "updated_at" (DVal.n t)) "payment_status"
        (DVal.s "paid")) "tier" (DVal.s v) := rfl

/-- The state update of the root webhook handler
(`$set {payment_status, updated_at}`) in `Doc.set` normal form. -/
theorem applySet_patchR (d : Doc) (t : Nat) :
    applySet d [("payment_status", DVal.s "paid"), ("updated_at", DVal.n t)]
    = Doc.set (Doc.set d "payment_status" (DVal.s "paid")) "updated_at" (DVal.n t) := rfl

/-- Applying the backend webhook patch twice is the same as applying it
once. -/
theorem patchB_idem (d : Doc) (t : Nat) (v : String) :
    Doc.set (Doc.set (Doc.set
      (Doc.set (Doc.set (Doc.set d "updated_at" (DVal.n t)) "payment_status"
        (DVal.s "paid")) "tier" (DVal.s v))
      "updated_at" (DVal.n t)) "payment_status" (DVal.s "paid")) "tier" (DVal.s v)
    = Doc.set (Doc.set (Doc.set d "updated_at" (DVal.n t)) "payment_status"
        (DVal.s "paid")) "tier" (DVal.s v) := by
  simp only [Doc.set]
  simp only [eraseKey_cons_keep _ _ _ _ (by decide : ¬ "payment_status" = "updated_at"),
    eraseKey_cons_keep _ _ _ _ (by decide : ¬ "tier" = "updated_at"),
    eraseKey_cons_keep _ _ _ _ (by decide : ¬ "updated_at" = "payment_status"),
    eraseKey_cons_keep _ _ _ _ (by decide : ¬ "tier" = "payment_status"),
    eraseKey_cons_keep _ _ _ _ (by decide : ¬ "updated_at" = "tier"),
    eraseKey_cons_keep _ _ _ _ (by decide : ¬ "payment_status" = "tier"),
    eraseKey_cons_drop]
  rw [eraseKey_chain3 d "updated_at" "payment_status" "tier"]

/-- Applying the root webhook patch twice is the same as applying it
once. -/
theorem patchR_idem (d : Doc) (t : Nat) :
    Doc.set (Doc.set
      (Doc.set (Doc.set d "payment_status" (DVal.s "paid")) "updated_at" (DVal.n t))
      "payment_status" (DVal.s "paid")) "updated_at" (DVal.n t)
    = Doc.set (Doc.set d "payment_status" (DVal.s "paid")) "updated_at" (DVal.n t) := by
  simp only [Doc.set]
  simp only [eraseKey_cons_keep _ _ _ _ (by decide : ¬ "payment_status" = "updated_at"),
    eraseKey_cons_keep _ _ _ _ (by decide : ¬ "updated_at" = "payment_status"),
    eraseKey_cons_drop]
  rw [eraseKey_chain2 d "payment_status" "updated_at"]

end Flame

namespace Flame

/-- C2: a payment-webhook request whose signature does not verify against
the configured webhook secret (`construct_event` raises, i.e.
`verified = none`) makes both handlers fail with the Invalid-Signature
error (HTTP 400) and leaves every collection untouched, regardless of the
payload content (the event is never even inspected). -/
theorem C2_invalid_signature_no_mutation (now : Nat) (db : Option (List Doc))
    (flames : List Doc) :
    Root.stripe_webhook now true none db = (Except.error 400, db) ∧
    Backend.stripe_webhook now none flames = (Except.error 400, flames) :=
  ⟨rfl, rfl⟩

/-- C10: with an unset/empty configured admin key, `admin_flames` of
`src/main.py` rejects every request with 401, whatever the supplied
`x-admin-key` header is — in particular an empty or missing header does
not match the empty key. -/
theorem C10_admin_fails_closed (hdr : Option String) (flames : List Doc) :
    Root.admin_flames "" hdr flames = Except.error 401 := by
  simp [Root.admin_flames]

/-- C9 counterexample: the store adapter does not overwrite a
caller-supplied creation timestamp.  `create_document` at clock 5 with a
document carrying `created_at = 3` persists `created_at = 3`, not the
adapter's own clock value 5. -/
theorem C9_counterexample :
    Doc.get (((create_document 5 "oid" [("created_at", DVal.n 3)] []).snd).headD [])
      "created_at" = some (DVal.n 3) ∧
    ¬ Doc.get (((create_document 5 "oid" [("created_at", DVal.n 3)] []).snd).headD [])
      "created_at" = some (DVal.n 5) := by
  decide

/-- C9 amended: `create_document` always overwrites `updated_at` with its
own clock and stamps `created_at` from its own clock only when the caller
did not supply one — a caller-supplied `created_at` is preserved;
`update_document` always overwrites the patch's `updated_at` with its own
clock before applying it. -/
theorem C9_timestamps_amended (now : Nat) (newId : String) (data : Doc)
    (coll : List Doc) (filt : Doc → Bool) (patch : Doc) (pre : List Doc) (d : Doc)
    (post : List Doc) (hpre : ∀ e ∈ pre, filt e = false) (hd : filt d = true) :
    (∃ ins, (create_document now newId data coll).snd = coll ++ [ins] ∧
       Doc.get ins "updated_at" = some (DVal.n now) ∧
       (Doc.get data "created_at" = none → Doc.get ins "created_at" = some (DVal.n now)) ∧
       (∀ v, Doc.get data "created_at" = some v → Doc.get ins "created_at" = some v)) ∧
    update_document now filt patch (pre ++ d :: post)
      = pre ++ applySet d (Doc.set patch "updated_at" (DVal.n now)) :: post ∧
    Doc.get (applySet d (Doc.set patch "updated_at" (DVal.n now))) "updated_at"
      = some (DVal.n now) := by
  refine ⟨⟨Doc.set (stamp_create now data) "_id" (DVal.s newId), rfl, ?_, ?_, ?_⟩, ?_, ?_⟩
  · rw [get_set_ne _ _ _ _ (by decide)]
    unfold stamp_create
    cases hc : Doc.get data "created_at" <;> simp only [hc] <;> exact get_set_self _ _ _
  · intro hc
    rw [get_set_ne _ _ _ _ (by decide)]
    unfold stamp_create
    simp only [hc]
    rw [get_set_ne _ _ _ _ (by decide), get_set_self]
  · intro v hc
    rw [get_set_ne _ _ _ _ (by decide)]
    unfold stamp_create
    simp only [hc]
    rw [get_set_ne _ _ _ _ (by decide), get_set_self]
  · exact update_one_append filt _ pre d post hpre hd
  · have hstep : applySet d (Doc.set patch "updated_at" (DVal.n now))
        = applySet (Doc.set d "updated_at" (DVal.n now)) (eraseKey patch "updated_at") := rfl
    rw [hstep, get_applySet_no_key (eraseKey patch "updated_at") "updated_at"
      (eraseKey_no_key patch "updated_at"), get_set_self]

/-- C9 witness: the amended timestamp theorem at a concrete input:
create at clock 5 with caller-supplied `created_at = 3` stamps
`updated_at = 5` but keeps `created_at = 3`; an update patch gets
`updated_at = 5` forced in. -/
theorem C9_timestamps_amended_witness :
    Doc.get (((create_document 5 "x" [("created_at", DVal.n 3)] []).snd).headD [])
      "updated_at" = some (DVal.n 5) ∧
    Doc.get (((create_document 5 "x" [("created_at", DVal.n 3)] []).snd).headD [])
      "created_at" = some (DVal.n 3) ∧
    Doc.get (applySet [("id", DVal.s "f")]
      (Doc.set [("payment_status", DVal.s "paid")] "updated_at" (DVal.n 5)))
      "updated_at" = some (DVal.n 5) := by
  have h := C9_timestamps_amended 5 "x" [("created_at", DVal.n 3)] []
    (byField "id" (DVal.s "f")) [("payment_status", DVal.s "paid")]
    [] [("id", DVal.s "f")] [] (by simp) (by decide)
  obtain ⟨⟨ins, hins, hupd, _, hkeep⟩, _, hu2⟩ := h
  have hhead : ((create_document 5 "x" [("created_at", DVal.n 3)] []).snd).headD ([] : Doc)
      = ins := by
    rw [hins]
    rfl
  exact ⟨hhead ▸ hupd, hhead ▸ hkeep (DVal.n 3) (by decide), hu2⟩

end Flame

namespace Flame

/-- C5 counterexample: `checkout` of `src/main.py` does not reject an
unrecognized tier.  With Stripe configured and a flame id supplied, tier
`"gold"` (outside `{basic, premium}`) creates a session charging 999
minor units instead of failing with an Invalid-Tier error. -/
theorem C5_counterexample :
    Root.checkout true (some "f1") "gold" []
      = Except.ok { unit_amount := 999, flame_id := "f1", tier := "gold" } := by
  decide

/-- C5 amended: `create_checkout_session` of `src/backend/main.py` maps
`basic` to 499 and `premium` to 999 minor units and fails with the
Invalid-Tier error (400) on every other tier; `checkout` of `src/main.py`
maps `basic` to 499 and every other tier value — recognized or not — to
999, creating a session with no invalid-tier check. -/
theorem C5_pricing_amended (flames : List Doc) (fid tier : String) (flame : Doc)
    (sv : DVal)
    (hfound : get_document (byField "id" (DVal.s fid)) flames = some flame)
    (hslug : Doc.get flame "slug" = some sv) :
    Backend.create_checkout_session fid "basic" flames
      = Except.ok { unit_amount := 499, flame_id := fid, tier := "basic" } ∧
    Backend.create_checkout_session fid "premium" flames
      = Except.ok { unit_amount := 999, flame_id := fid, tier := "premium" } ∧
    (tierOk tier = false →
      Backend.create_checkout_session fid tier flames = Except.error 400) ∧
    (¬ fid = "" → Root.checkout true (some fid) tier flames
      = Except.ok { unit_amount := if tier = "basic" then 499 else 999,
                    flame_id := fid, tier := tier }) := by
  refine ⟨?_, ?_, ?_, ?_⟩
  · simp [Backend.create_checkout_session, hfound, Backend.price_map, hslug]
  · simp [Backend.create_checkout_session, hfound, Backend.price_map, hslug]
  · intro htier
    have hne : ¬ tier = "basic" ∧ ¬ tier = "premium" := by
      simpa [tierOk] using htier
    simp [Backend.create_checkout_session, hfound, Backend.price_map, hne.1, hne.2]
  · intro hfid
    simp [Root.checkout, hfid]

/-- C5 witness: the amended pricing theorem at a one-flame store. -/
theorem C5_pricing_amended_witness :
    Backend.create_checkout_session "f1" "premium" [[("id", DVal.s "f1"),
        ("slug", DVal.s "a-b-x")]]
      = Except.ok { unit_amount := 999, flame_id := "f1", tier := "premium" } ∧
    Backend.create_checkout_session "f1" "gold" [[("id", DVal.s "f1"),
        ("slug", DVal.s "a-b-x")]] = Except.error 400 ∧
    Root.checkout true (some "f1") "gold" [[("id", DVal.s "f1"),
        ("slug", DVal.s "a-b-x")]]
      = Except.ok { unit_amount := 999, flame_id := "f1", tier := "gold" } := by
  have h := C5_pricing_amended [[("id", DVal.s "f1"), ("slug", DVal.s "a-b-x")]]
    "f1" "gold" [("id", DVal.s "f1"), ("slug", DVal.s "a-b-x")] (DVal.s "a-b-x")
    (by decide) (by decide)
  exact ⟨h.2.1, h.2.2.1 (by decide), by simpa using h.2.2.2 (by decide)⟩

/-- C6 counterexample: `checkout` of `src/main.py` never looks the flame
up: with an empty flame collection (so no flame with id `"nosuch"`
exists) it still creates a session instead of failing Not-Found. -/
theorem C6_counterexample :
    Root.checkout true (some "nosuch") "basic" []
      = Except.ok { unit_amount := 499, flame_id := "nosuch", tier := "basic" } := by
  decide

/-- C6 amended: `create_checkout_session` of `src/backend/main.py` fails
with 404 when no flame with the supplied id exists, creating no session;
`checkout` of `src/main.py` performs no lookup at all — its result is
independent of the flame collection. -/
theorem C6_lookup_amended (fid tier : String) (flames flames2 : List Doc)
    (habsent : get_document (byField "id" (DVal.s fid)) flames = none) :
    Backend.create_checkout_session fid tier flames = Except.error 404 ∧
    Root.checkout true (some fid) tier flames
      = Root.checkout true (some fid) tier flames2 := by
  exact ⟨by simp [Backend.create_checkout_session, habsent], rfl⟩

/-- C6 witness: the amended lookup theorem at a concrete input. -/
theorem C6_lookup_amended_witness :
    Backend.create_checkout_session "nosuch" "basic" [] = Except.error 404 ∧
    Root.checkout true (some "nosuch") "basic" []
      = Root.checkout true (some "nosuch") "basic" [[("id", DVal.s "other")]] :=
  C6_lookup_amended "nosuch" "basic" [] [[("id", DVal.s "other")]] (by decide)

end Flame

namespace Flame

/-- C4 counterexample: `reply_flame` of `src/main.py` neither loads the
flame nor checks its tier.  With an empty flame collection (so the
referenced flame `"ghost"` does not exist) a schema-valid reply succeeds
and a reply document is persisted, instead of failing Not-Found. -/
theorem C4_counterexample :
    (Root.reply_flame 3 "rid" "ghost" { message := "hello there", extra := [] }
        true [] []).fst = Except.ok true ∧
    ((Root.reply_flame 3 "rid" "ghost" { message := "hello there", extra := [] }
        true [] []).snd).length = 1 := by
  decide

/-- C4 amended: `reply_flame` of `src/backend/main.py` behaves as claimed:
Not-Found when the flame is absent, Forbidden when its tier is not
`premium`, and for a premium flame with valid input it creates exactly one
reply referencing the flame id.  `reply_flame` of `src/main.py` performs
no existence or tier check: any schema-valid reply is persisted,
whatever the flame collection contains. -/
theorem C4_reply_amended (now : Nat) (newId fid : String)
    (pb : Backend.FlameReply) (pr : Root.ReplyPayload)
    (flames replies : List Doc) (flame : Doc)
    (hvb : Backend.FlameReply.valid pb = true) :
    (get_document (byField "id" (DVal.s fid)) flames = none →
       Backend.reply_flame now newId fid pb flames replies
         = (Except.error 404, replies)) ∧
    (get_document (byField "id" (DVal.s fid)) flames = some flame →
       ¬ Doc.get flame "tier" = some (DVal.s "premium") →
       Backend.reply_flame now newId fid pb flames replies
         = (Except.error 403, replies)) ∧
    (get_document (byField "id" (DVal.s fid)) flames = some flame →
       Doc.get flame "tier" = some (DVal.s "premium") →
       ∃ rdoc, Backend.reply_flame now newId fid pb flames replies
           = (Except.ok true, replies ++ [rdoc]) ∧
         Doc.get rdoc "flame_id" = some (DVal.s fid)) ∧
    (Root.FlameReply.valid pr.message = true →
       ∃ rdoc, Root.reply_flame now newId fid pr true flames replies
           = (Except.ok true, replies ++ [rdoc]) ∧
         Doc.get rdoc "flame_id" = some (DVal.s fid)) := by
  refine ⟨?_, ?_, ?_, ?_⟩
  · intro habsent
    simp [Backend.reply_flame, hvb, habsent]
  · intro hfound htier
    simp [Backend.reply_flame, hvb, hfound, htier]
  · intro hfound htier
    refine ⟨Doc.set (stamp_create now [("flame_id", DVal.s fid),
      ("message", DVal.s pb.message), ("sender_name", optStr pb.sender_name),
      ("created_at", DVal.n now)]) "_id" (DVal.s newId), ?_, ?_⟩
    · simp [Backend.reply_flame, hvb, hfound, htier, create_document]
    · simp [stamp_create, Doc.get, get_set_ne, get_set_self]
  · intro hvr
    refine ⟨Doc.set (stamp_create now (Doc.set (Doc.set
      (("message", DVal.s pr.message) :: pr.extra) "flame_id" (DVal.s fid))
      "created_at" (DVal.n now))) "_id" (DVal.s newId), ?_, ?_⟩
    · simp [Root.reply_flame, hvr, Root.create_document, create_document]
    · simp [stamp_create, get_set_ne, get_set_self]

end Flame

namespace Flame

/-- C4 witness: the amended reply theorem at concrete stores — absent
flame 404s, basic-tier flame 403s, premium flame accepts, and the root
handler accepts with no flame at all. -/
theorem C4_reply_amended_witness :
    Backend.reply_flame 2 "r1" "f1"
        { flame_id := "f1", message := "congrats", sender_name := none } [] []
      = (Except.error 404, []) ∧
    Backend.reply_flame 2 "r1" "f1"
        { flame_id := "f1", message := "congrats", sender_name := none }
        [[("id", DVal.s "f1"), ("tier", DVal.s "basic")]] []
      = (Except.error 403, []) ∧
    (Backend.reply_flame 2 "r1" "f1"
        { flame_id := "f1", message := "congrats", sender_name := none }
        [[("id", DVal.s "f1"), ("tier", DVal.s "premium")]] []).fst
      = Except.ok true ∧
    (Root.reply_flame 2 "r1" "f1" { message := "congrats", extra := [] }
        true [] []).fst = Except.ok true := by
  have hvb : Backend.FlameReply.valid
      { flame_id := "f1", message := "congrats", sender_name := none } = true := by decide
  refine ⟨?_, ?_, ?_, ?_⟩
  · exact (C4_reply_amended 2 "r1" "f1"
      { flame_id := "f1", message := "congrats", sender_name := none }
      { message := "congrats", extra := [] } [] [] [] hvb).1 (by decide)
  · exact (C4_reply_amended 2 "r1" "f1"
      { flame_id := "f1", message := "congrats", sender_name := none }
      { message := "congrats", extra := [] }
      [[("id", DVal.s "f1"), ("tier", DVal.s "basic")]] []
      [("id", DVal.s "f1"), ("tier", DVal.s "basic")] hvb).2.1 (by decide) (by decide)
  · obtain ⟨rdoc, hr, _⟩ := (C4_reply_amended 2 "r1" "f1"
      { flame_id := "f1", message := "congrats", sender_name := none }
      { message := "congrats", extra := [] }
      [[("id", DVal.s "f1"), ("tier", DVal.s "premium")]] []
      [("id", DVal.s "f1"), ("tier", DVal.s "premium")] hvb).2.2.1 (by decide) (by decide)
    rw [hr]
  · obtain ⟨rdoc, hr, _⟩ := (C4_reply_amended 2 "r1" "f1"
      { flame_id := "f1", message := "congrats", sender_name := none }
      { message := "congrats", extra := [] } [] [] [] hvb).2.2.2 (by decide)
    rw [hr]

end Flame


namespace Flame

/-- A backend creation payload whose message is 2 characters long,
otherwise conforming. -/
def pbShortMsg : Backend.FlameCreate :=
  { recipient_name := "Alex", sender_name := some "Sam", message := "hi",
    photos := none, flame_color := "red", tier := "basic",
    schedule_date := none, allow_public_gallery := false }

/-- A root creation payload whose message is 2 characters long, otherwise
conforming. -/
def prShortMsg : Root.FlamePayload :=
  { recipient_name := "Alex", sender_name := "Sam", message := "hi",
    photos := none, flame_color := some "red", tier := "basic",
    schedule_date := none, allow_public_gallery := false,
    payment_status := none, captcha_token := none }

/-- C7 counterexample: the backend schema has no minimum message length.
A creation input with the 2-character message `"hi"` passes
`src/backend/schemas.py` validation and `create_flame` of
`src/backend/main.py` persists a document for it, instead of failing with
a Validation-Error and persisting nothing. -/
theorem C7_counterexample :
    Backend.FlameCreate.valid pbShortMsg = true ∧
    ((Backend.create_flame 7 "oid" "rnd" "fid" pbShortMsg []).snd).length = 1 := by
  decide

/-- C7 amended: in `src/main.py` (schema `src/schemas.py`, minimum 10), a
creation input whose message is shorter than the minimum fails with 422
and nothing is persisted; the `src/backend` schema imposes no minimum, so
any input it considers valid — whatever its message length — is
persisted. -/
theorem C7_min_message_amended (now now2 : Nat) (slugRand newId : String)
    (p : Root.FlamePayload) (flames : List Doc)
    (oid slugRand2 fid : String) (pb : Backend.FlameCreate) (flames2 : List Doc)
    (hmsg : p.message.length < 10)
    (hvb : Backend.FlameCreate.valid pb = true) :
    Root.create_flame now slugRand newId true p flames = (Except.error 422, flames) ∧
    ∃ d, (Backend.create_flame now2 oid slugRand2 fid pb flames2).snd
        = flames2 ++ [d] := by
  constructor
  · have hC : decide (10 ≤ p.message.length ∧ p.message.length ≤ 4000) = false := by
      simp only [decide_eq_false_iff_not]
      intro hh
      omega
    have hv : Root.FlameCreate.valid p = false := by
      simp [Root.FlameCreate.valid, hC]
    simp [Root.create_flame, hv]
  · unfold Backend.create_flame
    rw [hvb]
    exact ⟨_, rfl⟩

/-- C7 witness: the amended theorem at concrete inputs — the root handler
rejects the message `"hi"` with 422 touching nothing, while the backend
persists a document for the same message. -/
theorem C7_min_message_amended_witness :
    Root.create_flame 7 "rnd" "nid" true prShortMsg [] = (Except.error 422, []) ∧
    ((Backend.create_flame 7 "oid" "rnd" "fid" pbShortMsg []).snd).length = 1 := by
  have h := C7_min_message_amended 7 7 "rnd" "nid" prShortMsg []
    "oid" "rnd" "fid" pbShortMsg [] (by decide) (by decide)
  obtain ⟨h1, d, hd⟩ := h
  exact ⟨h1, by rw [hd]; rfl⟩

end Flame

namespace Flame

/-- A backend creation payload carrying four conforming photo URLs. -/
def pbFourPhotos : Backend.FlameCreate :=
  { recipient_name := "Alex", sender_name := some "Sam",
    message := "We miss you dearly and always will",
    photos := some [⟨"https://a.io/1.png", none, none⟩,
      ⟨"https://a.io/2.png", none, none⟩, ⟨"https://a.io/3.png", none, none⟩,
      ⟨"https://a.io/4.png", none, none⟩],
    flame_color := "red", tier := "basic", schedule_date := none,
    allow_public_gallery := false }

/-- C8 counterexample: `src/backend` never rejects on photo count.  A
creation input with four conforming photos passes the backend schema and
is persisted (with the photo list silently truncated to the first three),
instead of failing with a Validation-Error and persisting nothing. -/
theorem C8_counterexample :
    Backend.FlameCreate.valid pbFourPhotos = true ∧
    ((Backend.create_flame 7 "oid" "rnd" "fid" pbFourPhotos []).snd).length = 1 ∧
    Doc.get (((Backend.create_flame 7 "oid" "rnd" "fid" pbFourPhotos []).snd).headD [])
        "photos" = some (DVal.photoList [⟨"https://a.io/1.png", none, none⟩,
          ⟨"https://a.io/2.png", none, none⟩, ⟨"https://a.io/3.png", none, none⟩]) ∧
    ¬ (Backend.create_flame 7 "oid" "rnd" "fid" pbFourPhotos []).fst
        = Except.error 422 := by
  decide

/-- C8 amended: in `src/main.py` (schema `src/schemas.py`), a creation
input with more than 3 photos or a photo URL not ending (case-insensitive,
as a whole string) in an allow-listed extension fails with 422 and nothing
is persisted; `src/backend/main.py` never rejects on photos — it silently
drops non-conforming URLs, keeps at most the first three, and persists the
document. -/
theorem C8_photos_amended (now now2 : Nat) (slugRand newId oid slugRand2 fid : String)
    (p : Root.FlamePayload) (flames : List Doc) (pb : Backend.FlameCreate)
    (flames2 : List Doc)
    (hbad : Root.validate_photos_ok p.photos = false)
    (hvb : Backend.FlameCreate.valid pb = true) :
    Root.create_flame now slugRand newId true p flames = (Except.error 422, flames) ∧
    (∀ photos : List Photo, (Backend.validate_photos photos).length ≤ 3) ∧
    (∀ photos : List Photo, ∀ ph ∈ Backend.validate_photos photos,
       Backend.photoUrlOk ph.url = true) ∧
    ∃ d, (Backend.create_flame now2 oid slugRand2 fid pb flames2).snd
        = flames2 ++ [d] ∧
      Doc.get d "photos"
        = some (DVal.photoList (Backend.validate_photos (pb.photos.getD []))) := by
  refine ⟨?_, ?_, ?_, ?_⟩
  · have hv : Root.FlameCreate.valid p = false := by
      simp [Root.FlameCreate.valid, hbad]
    simp [Root.create_flame, hv]
  · intro photos
    exact List.length_take_le 3 _
  · intro photos ph hph
    have hph2 : ph ∈ List.filter (fun q => Backend.photoUrlOk q.url) photos :=
      List.take_subset 3 _ hph
    exact List.of_mem_filter (p := fun q : Photo => Backend.photoUrlOk q.url) hph2
  · unfold Backend.create_flame
    rw [hvb]
    simp only [Bool.true_eq_false, if_false]
    refine ⟨_, rfl, ?_⟩
    simp [create_document, stamp_create, Doc.get, get_set_ne, get_set_self]

end Flame

namespace Flame

/-- A root creation payload carrying four conforming photo URLs. -/
def prFourPhotos : Root.FlamePayload :=
  { recipient_name := "Alex", sender_name := "Sam",
    message := "We miss you dearly and always will",
    photos := some ["https://a.io/1.png", "https://a.io/2.png",
      "https://a.io/3.png", "https://a.io/4.png"],
    flame_color := some "red", tier := "basic", schedule_date := none,
    allow_public_gallery := false, payment_status := none, captcha_token := none }

/-- C8 witness: the amended photo theorem at concrete inputs — the root
handler rejects four photos with 422, the backend keeps at most three and
persists. -/
theorem C8_photos_amended_witness :
    Root.create_flame 7 "rnd" "nid" true prFourPhotos [] = (Except.error 422, []) ∧
    (Backend.validate_photos [⟨"https://a.io/1.png", none, none⟩,
      ⟨"https://a.io/2.png", none, none⟩, ⟨"https://a.io/3.png", none, none⟩,
      ⟨"https://a.io/4.png", none, none⟩]).length ≤ 3 ∧
    ((Backend.create_flame 7 "oid" "rnd" "fid" pbFourPhotos []).snd).length = 1 := by
  have h := C8_photos_amended 7 7 "rnd" "nid" "oid" "rnd" "fid" prFourPhotos []
    pbFourPhotos [] (by decide) (by decide)
  obtain ⟨h1, h2, _, d, hd, _⟩ := h
  exact ⟨h1, h2 _, by rw [hd]; rfl⟩

/-- A conforming backend creation payload (no photos). -/
def pbValid : Backend.FlameCreate :=
  { recipient_name := "Alex", sender_name := some "Sam",
    message := "We miss you dearly and always will",
    photos := none, flame_color := "red", tier := "basic",
    schedule_date := none, allow_public_gallery := false }

/-- A conforming root creation payload that also smuggles in a
client-supplied `payment_status` of `"paid"`. -/
def prPaidAttempt : Root.FlamePayload :=
  { recipient_name := "Alex", sender_name := "Sam",
    message := "We miss you dearly and always will",
    photos := none, flame_color := some "red", tier := "basic",
    schedule_date := none, allow_public_gallery := false,
    payment_status := some "paid", captcha_token := none }

/-- C1 counterexample: `create_flame` of `src/backend/main.py` persists
`payment_status = "pending"`, not `"unpaid"`, for a valid creation
input. -/
theorem C1_counterexample :
    Doc.get (((Backend.create_flame 7 "oid" "rnd" "fid" pbValid []).snd).headD [])
        "payment_status" = some (DVal.s "pending") ∧
    ¬ Doc.get (((Backend.create_flame 7 "oid" "rnd" "fid" pbValid []).snd).headD [])
        "payment_status" = some (DVal.s "unpaid") := by
  decide

/-- C1 amended: for every valid creation input, `create_flame` of
`src/main.py` persists `payment_status = "unpaid"` and reports
`payment_status = "unpaid"`, whatever `payment_status` the client supplied
(the schema has no such field, so the quantification covers every
client-supplied value); `create_flame` of `src/backend/main.py` instead
persists the literal `payment_status = "pending"` — equally independent of
any client-supplied value. -/
theorem C1_payment_status_amended (now now2 : Nat)
    (slugRand newId oid slugRand2 fid : String)
    (p : Root.FlamePayload) (flames : List Doc) (pb : Backend.FlameCreate)
    (flames2 : List Doc)
    (hv : Root.FlameCreate.valid p = true)
    (hvb : Backend.FlameCreate.valid pb = true) :
    (Root.create_flame now slugRand newId true p flames).fst
      = Except.ok ⟨newId,
          Root.generate_slug p.recipient_name p.sender_name slugRand, "unpaid"⟩ ∧
    (∃ d, (Root.create_flame now slugRand newId true p flames).snd
        = flames ++ [d] ∧
      Doc.get d "payment_status" = some (DVal.s "unpaid")) ∧
    ∃ d, (Backend.create_flame now2 oid slugRand2 fid pb flames2).snd
        = flames2 ++ [d] ∧
      Doc.get d "payment_status" = some (DVal.s "pending") := by
  refine ⟨?_, ?_, ?_⟩
  · unfold Root.create_flame
    rw [hv]
    simp only [Bool.true_eq_false, if_false]
    rfl
  · unfold Root.create_flame
    rw [hv]
    simp only [Bool.true_eq_false, if_false]
    refine ⟨_, rfl, ?_⟩
    simp [Root.create_document, create_document, stamp_create,
      Root.FlameCreate.model_dump, Doc.get, get_set_ne, get_set_self]
  · unfold Backend.create_flame
    rw [hvb]
    simp only [Bool.true_eq_false, if_false]
    refine ⟨_, rfl, ?_⟩
    simp [create_document, stamp_create, Doc.get, get_set_ne, get_set_self]

/-- C1 witness: the amended theorem at a concrete input that smuggles in
`payment_status = "paid"`: the root handler still reports and persists
`"unpaid"`; the backend persists `"pending"`. -/
theorem C1_payment_status_amended_witness :
    (Root.create_flame 7 "rnd" "nid" true prPaidAttempt []).fst
      = Except.ok ⟨"nid", "alex-sam-rnd", "unpaid"⟩ ∧
    Doc.get (((Root.create_flame 7 "rnd" "nid" true prPaidAttempt []).snd).headD [])
        "payment_status" = some (DVal.s "unpaid") ∧
    Doc.get (((Backend.create_flame 7 "oid" "rnd" "fid" pbValid []).snd).headD [])
        "payment_status" = some (DVal.s "pending") := by
  have h := C1_payment_status_amended 7 7 "rnd" "nid" "oid" "rnd" "fid"
    prPaidAttempt [] pbValid [] (by decide) (by decide)
  obtain ⟨h1, ⟨d1, hd1, hp1⟩, d2, hd2, hp2⟩ := h
  refine ⟨?_, ?_, ?_⟩
  · rw [h1]
    rfl
  · rw [hd1]
    exact hp1
  · rw [hd2]
    exact hp2

end Flame

namespace Flame

/-- A verified `checkout.session.completed` event carrying `flame_id` and
`tier` metadata. -/
def completedEvent (fid tier : String) : WebhookEvent :=
  ⟨"checkout.session.completed", some fid, some tier⟩

/-- One delivery of a verified completed-checkout webhook to the backend
handler: the flame collection afterwards. -/
def backendDeliver (t : Nat) (fid tier : String) (s : List Doc) : List Doc :=
  (Backend.stripe_webhook t (some (completedEvent fid tier)) s).snd

/-- One delivery of a verified completed-checkout webhook to the root
handler: the flame collection afterwards. -/
def rootDeliver (t : Nat) (fid tier : String) (db : Option (List Doc)) :
    Option (List Doc) :=
  (Root.stripe_webhook t true (some (completedEvent fid tier)) db).snd

theorem updB_get_pay (d : Doc) (t : Nat) (v : String) :
    Doc.get (Doc.set (Doc.set (Doc.set d "updated_at" (DVal.n t))
      "payment_status" (DVal.s "paid")) "tier" (DVal.s v)) "payment_status"
      = some (DVal.s "paid") := by
  rw [get_set_ne _ _ _ _ (by decide), get_set_self]

theorem updR_get_pay (d : Doc) (t : Nat) :
    Doc.get (Doc.set (Doc.set d "payment_status" (DVal.s "paid"))
      "updated_at" (DVal.n t)) "payment_status" = some (DVal.s "paid") := by
  rw [get_set_ne _ _ _ _ (by decide), get_set_self]

theorem byField_updB (dd : Doc) (t : Nat) (v : String) (k : String) (val : DVal)
    (h1 : ¬ "tier" = k) (h2 : ¬ "payment_status" = k) (h3 : ¬ "updated_at" = k) :
    byField k val (Doc.set (Doc.set (Doc.set dd "updated_at" (DVal.n t))
      "payment_status" (DVal.s "paid")) "tier" (DVal.s v)) = byField k val dd := by
  unfold byField
  rw [get_set_ne _ _ _ _ h1, get_set_ne _ _ _ _ h2, get_set_ne _ _ _ _ h3]

theorem byField_updR (dd : Doc) (t : Nat) (k : String) (val : DVal)
    (h1 : ¬ "updated_at" = k) (h2 : ¬ "payment_status" = k) :
    byField k val (Doc.set (Doc.set dd "payment_status" (DVal.s "paid"))
      "updated_at" (DVal.n t)) = byField k val dd := by
  unfold byField
  rw [get_set_ne _ _ _ _ h1, get_set_ne _ _ _ _ h2]

/-- One backend delivery on a store whose first `id`-match is `dd`,
written out. -/
theorem backendDeliver_eq (t : Nat) (fid tier : String) (p1 p2 : List Doc)
    (dd : Doc) (hfid : ¬ fid = "")
    (hp : ∀ e ∈ p1, byField "id" (DVal.s fid) e = false)
    (hdd : byField "id" (DVal.s fid) dd = true) :
    backendDeliver t fid tier (p1 ++ dd :: p2)
      = p1 ++ Doc.set (Doc.set (Doc.set dd "updated_at" (DVal.n t))
          "payment_status" (DVal.s "paid")) "tier" (DVal.s tier) :: p2 := by
  unfold backendDeliver completedEvent Backend.stripe_webhook
  simp only [hfid, if_false, if_pos rfl, Option.getD, if_neg hfid]
  rw [update_document, update_one_append _ _ p1 dd p2 hp hdd, applySet_patchB]
  simp

/-- One root delivery on a store whose first `_id`-match is `dd`, written
out. -/
theorem rootDeliver_eq (t : Nat) (fid tier : String) (p1 p2 : List Doc)
    (dd : Doc) (hfid : ¬ fid = "") (hoid : objectIdOk fid = true)
    (hp : ∀ e ∈ p1, byField "_id" (DVal.s fid) e = false)
    (hdd : byField "_id" (DVal.s fid) dd = true) :
    rootDeliver t fid tier (some (p1 ++ dd :: p2))
      = some (p1 ++ Doc.set (Doc.set dd "payment_status" (DVal.s "paid"))
          "updated_at" (DVal.n t) :: p2) := by
  unfold rootDeliver completedEvent Root.stripe_webhook
  simp only [hfid, if_false, if_pos rfl, if_neg hfid, hoid, if_true]
  rw [update_one_append _ _ p1 dd p2 hp hdd, applySet_patchR]
  simp

end Flame

namespace Flame

/-- C3: both webhook handlers are idempotent.  For a flame present in the
store (decomposed as `pre ++ d :: post` with `d` the first match), a
verified `checkout.session.completed` delivery leaves the flame's
`payment_status` equal to `"paid"`, a second delivery of the same event
leaves it `"paid"` as well, and when the two deliveries carry the same
clock value the store after two deliveries equals the store after one —
applying the handler's state update twice equals applying it once. -/
theorem C3_webhook_idempotent (t1 t2 : Nat) (fid tier : String)
    (pre post : List Doc) (d : Doc)
    (hfid : ¬ fid = "") (hoid : objectIdOk fid = true)
    (hpre_b : ∀ e ∈ pre, byField "id" (DVal.s fid) e = false)
    (hd_b : byField "id" (DVal.s fid) d = true)
    (hpre_r : ∀ e ∈ pre, byField "_id" (DVal.s fid) e = false)
    (hd_r : byField "_id" (DVal.s fid) d = true) :
    (∃ d1, get_document (byField "id" (DVal.s fid))
        (backendDeliver t1 fid tier (pre ++ d :: post)) = some d1 ∧
      Doc.get d1 "payment_status" = some (DVal.s "paid")) ∧
    (∃ d2, get_document (byField "id" (DVal.s fid))
        (backendDeliver t2 fid tier (backendDeliver t1 fid tier (pre ++ d :: post)))
        = some d2 ∧ Doc.get d2 "payment_status" = some (DVal.s "paid")) ∧
    (t1 = t2 →
      backendDeliver t2 fid tier (backendDeliver t1 fid tier (pre ++ d :: post))
        = backendDeliver t1 fid tier (pre ++ d :: post)) ∧
    ∃ s1, rootDeliver t1 fid tier (some (pre ++ d :: post)) = some s1 ∧
      (∃ d1, get_document (byField "_id" (DVal.s fid)) s1 = some d1 ∧
        Doc.get d1 "payment_status" = some (DVal.s "paid")) ∧
      ∃ s2, rootDeliver t2 fid tier (some s1) = some s2 ∧
        (∃ d2, get_document (byField "_id" (DVal.s fid)) s2 = some d2 ∧
          Doc.get d2 "payment_status" = some (DVal.s "paid")) ∧
        (t1 = t2 → s2 = s1) := by
  have hd_b1 : byField "id" (DVal.s fid)
      (Doc.set (Doc.set (Doc.set d "updated_at" (DVal.n t1)) "payment_status"
        (DVal.s "paid")) "tier" (DVal.s tier)) = true := by
    rw [byField_updB _ _ _ _ _ (by decide) (by decide) (by decide)]
    exact hd_b
  have hd_r1 : byField "_id" (DVal.s fid)
      (Doc.set (Doc.set d "payment_status" (DVal.s "paid")) "updated_at"
        (DVal.n t1)) = true := by
    rw [byField_updR _ _ _ _ (by decide) (by decide)]
    exact hd_r
  have hB1 := backendDeliver_eq t1 fid tier pre post d hfid hpre_b hd_b
  have hB2 := backendDeliver_eq t2 fid tier pre post _ hfid hpre_b hd_b1
  have hR1 := rootDeliver_eq t1 fid tier pre post d hfid hoid hpre_r hd_r
  have hR2 := rootDeliver_eq t2 fid tier pre post _ hfid hoid hpre_r hd_r1
  refine ⟨?_, ?_, ?_, ?_⟩
  · rw [hB1]
    exact ⟨_, get_document_append _ pre _ post hpre_b hd_b1, updB_get_pay d t1 tier⟩
  · rw [hB1, hB2]
    refine ⟨_, get_document_append _ pre _ post hpre_b ?_, updB_get_pay _ t2 tier⟩
    rw [byField_updB _ _ _ _ _ (by decide) (by decide) (by decide)]
    exact hd_b1
  · intro ht
    subst ht
    rw [hB1, hB2, patchB_idem]
  · refine ⟨_, hR1, ⟨_, get_document_append _ pre _ post hpre_r hd_r1,
      updR_get_pay d t1⟩, ?_⟩
    refine ⟨_, hR2, ⟨_, get_document_append _ pre _ post hpre_r ?_,
      updR_get_pay _ t2⟩, ?_⟩
    · rw [byField_updR _ _ _ _ (by decide) (by decide)]
      exact hd_r1
    · intro ht
      subst ht
      rw [patchR_idem]

end Flame

namespace Flame

/-- A 24-hex-character flame id (a valid ObjectId string). -/
def fid24 : String := "aaaaaaaaaaaaaaaaaaaaaaaa"

/-- A concrete unpaid flame carrying both the backend `id` key and the
root `_id` key. -/
def unpaidFlame : Doc :=
  [("id", DVal.s fid24), ("_id", DVal.s fid24),
   ("payment_status", DVal.s "unpaid")]

/-- C3 witness: the idempotence theorem at a concrete one-flame store and
equal clocks — the second delivery changes nothing, and the flame is
`paid` after one delivery. -/
theorem C3_webhook_idempotent_witness :
    backendDeliver 5 fid24 "premium"
        (backendDeliver 5 fid24 "premium" ([] ++ unpaidFlame :: []))
      = backendDeliver 5 fid24 "premium" ([] ++ unpaidFlame :: []) ∧
    rootDeliver 5 fid24 "premium"
        (rootDeliver 5 fid24 "premium" (some ([] ++ unpaidFlame :: [])))
      = rootDeliver 5 fid24 "premium" (some ([] ++ unpaidFlame :: [])) ∧
    Doc.get ((backendDeliver 5 fid24 "premium"
        ([] ++ unpaidFlame :: [])).headD []) "payment_status"
      = some (DVal.s "paid") := by
  have h := C3_webhook_idempotent 5 5 fid24 "premium" [] [] unpaidFlame
    (by decide) (by decide) (by simp) (by decide) (by simp) (by decide)
  obtain ⟨⟨d1, hgd1, hp1⟩, _, hidem, s1, hs1, _, s2, hs2, _, hidemR⟩ := h
  refine ⟨hidem rfl, ?_, ?_⟩
  · rw [hs1, hs2, hidemR rfl]
  · have hhead : (backendDeliver 5 fid24 "premium"
        ([] ++ unpaidFlame :: [])).headD ([] : Doc) = d1 := by
      rw [backendDeliver_eq 5 fid24 "premium" [] [] unpaidFlame (by decide)
        (by simp) (by decide)] at hgd1 ⊢
      simp [get_document] at hgd1
      simpa using hgd1.2
    rw [hhead]
    exact hp1

end Flame
